import Mathlib

/-!
Verification of the hotkey text-augmentation utility (`hat_au.py`).

The program captures the current text selection via a simulated copy,
streams a completion from a remote model endpoint, and types the response
back.  External effects (OS clipboard, key simulation, the remote stream)
are modelled as explicit inputs; each Python function becomes a Lean
function over those inputs.
-/

namespace HatAu

/-- The hardcoded fallback model list (`DEFAULT_MODELS` in the source). -/
def DEFAULT_MODELS : List String := ["llama3.1-8b", "llama3.1-70b"]

/-- The sentinel stored in `current_model_name` when no models were ever
available (the literal string compared against in `perform_action`). -/
def placeholder : String := "no_model_available_placeholder"

/-- State of the OS as the clipboard simulator sees it: the single clipboard
slot, and the text currently selected in the focused application (if any),
which a simulated Ctrl+C would place on the clipboard. -/
structure OS where
  clipboard : String
  selection : Option String
deriving DecidableEq, Repr

/-- Effect of `pyautogui.hotkey('ctrl', 'c')` followed by the fixed delay:
if some text is selected the OS replaces the clipboard with it; with no
selection the clipboard is left unchanged. -/
def press_ctrl_c (os : OS) : OS :=
  match os.selection with
  | some s => { os with clipboard := s }
  | none => os

/-- Embedding of `get_selected_text`: saves the clipboard, clears it,
simulates Ctrl+C, reads the clipboard back; the empty read-back means
nothing was copied, so the original clipboard value is restored and `none`
is returned, otherwise the captured text is returned and stays on the
clipboard.  Returns the result together with the final OS state. -/
def get_selected_text (os : OS) : Option String × OS :=
  let original_clipboard_content := os.clipboard
  let afterCopy := press_ctrl_c { os with clipboard := "" }
  let selected_text := afterCopy.clipboard
  if selected_text = "" then
    (none, { afterCopy with clipboard := original_clipboard_content })
  else
    (some selected_text, afterCopy)

/-- Outcome of one model-list request (`client.models.list()`):
either it returns the catalog's identifiers, or it raises. -/
inductive FetchOutcome where
  | ok (modelIds : List String)
  | failed
deriving DecidableEq, Repr

/-- Embedding of `get_available_models`: on success the fetched identifiers
are returned in order; on any failure the fixed fallback `DEFAULT_MODELS`
is returned. -/
def get_available_models (outcome : FetchOutcome) : List String :=
  match outcome with
  | .ok modelIds => modelIds
  | .failed => DEFAULT_MODELS

/-- Outcome of the streaming completion request: either the stream completes
and yields the listed fragments (each fragment's text content may be
missing, i.e. `none`), or the call or the stream fails after yielding some
fragments that are then discarded. -/
inductive StreamOutcome where
  | success (chunks : List (Option String))
  | failed (discardedChunks : List (Option String))
deriving DecidableEq, Repr

/-- The accumulation loop of `get_cerebras_completion`:
`full_response_content += (chunk.choices[0].delta.content or "")`
over the fragments in stream order, starting from the empty string. -/
def accumulateChunks (chunks : List (Option String)) : String :=
  chunks.foldl (fun acc c => acc ++ c.getD "") ""

/-- Embedding of the guard `if not full_response_content.strip():` — the
stripped string is empty exactly when every character of the string is
whitespace (vacuously so for the empty string). -/
def stripped_empty (s : String) : Bool :=
  s.data.all Char.isWhitespace

/-- Result of `get_cerebras_completion`: the returned value, plus whether
the `finally` block released the client. -/
structure CompletionResult where
  response : Option String
  clientClosed : Bool
deriving DecidableEq, Repr

/-- Embedding of `get_cerebras_completion`: on a completed stream the
fragments are concatenated; an empty-or-whitespace accumulation yields
`none`, otherwise the accumulated string.  On a transport/protocol failure
`none` is returned and the partial accumulation is discarded.  The client
is released in every case (the `finally` block). -/
def get_cerebras_completion (outcome : StreamOutcome) : CompletionResult :=
  match outcome with
  | .success chunks =>
      let full_response_content := accumulateChunks chunks
      if stripped_empty full_response_content then
        { response := none, clientClosed := true }
      else
        { response := some full_response_content, clientClosed := true }
  | .failed _ => { response := none, clientClosed := true }

/-- Effect of `type_response` on the clipboard: the API response is copied
to the clipboard and then pasted. -/
def type_response (api_response : String) (_clipboard : String) : String :=
  api_response

/-- Embedding of `update_selected_model`: unconditionally overwrites the
process-wide `current_model_name` with the given model name. -/
def update_selected_model (model_name : String) (_current : String) : String :=
  model_name

/-- The checked-state predicate of a tray menu entry
(`checked=lambda _, model_n=model_name: current_model_name == model_n`). -/
def menu_item_checked (current_model_name : String) (model_n : String) : Bool :=
  current_model_name == model_n

/-- The model entries of the tray menu built by `create_systray_menu`:
one selectable entry per element of `available_models`, in order (when the
list is empty the menu instead shows a single disabled placeholder entry,
which carries no action). -/
def create_systray_menu_models (available_models : List String) : List String :=
  available_models

/-- Embedding of `check_api_key`: `true` iff the credential value is
present and non-empty (`if not api_key` in Python is falsiness, so an
absent variable and an empty-string variable both fail). -/
def check_api_key (api_key : Option String) : Bool :=
  if api_key.getD "" = "" then false else true

/-- Environment of one hotkey activation: the OS state at activation, the
value of `current_model_name` read by the dispatcher, and the outcome of
the completion stream were it to be requested. -/
structure ActionEnv where
  os : OS
  selectedModel : String
  stream : StreamOutcome
deriving DecidableEq, Repr

/-- Observable trace of one `perform_action` run: whether the remote
completion request was issued, the argument passed to `type_response`
(`none` when no paste was simulated), and the final clipboard content. -/
structure ActionTrace where
  completionCalled : Bool
  typed : Option String
  finalClipboard : String
deriving DecidableEq, Repr

/-- Embedding of `perform_action`: capture the selection; abort when the
capture is absent; abort when `current_model_name` is empty or equals the
placeholder sentinel, before any remote call; otherwise issue the
completion request and, only when it produced a truthy response, simulate
the paste via `type_response`. -/
def perform_action (env : ActionEnv) : ActionTrace :=
  match (get_selected_text env.os).1 with
  | none =>
      { completionCalled := false, typed := none,
        finalClipboard := (get_selected_text env.os).2.clipboard }
  | some _selected_text =>
      if env.selectedModel = "" ∨ env.selectedModel = placeholder then
        { completionCalled := false, typed := none,
          finalClipboard := (get_selected_text env.os).2.clipboard }
      else
        match (get_cerebras_completion env.stream).response with
        | some api_response =>
            if api_response = "" then
              { completionCalled := true, typed := none,
                finalClipboard := (get_selected_text env.os).2.clipboard }
            else
              { completionCalled := true, typed := some api_response,
                finalClipboard :=
                  type_response api_response (get_selected_text env.os).2.clipboard }
        | none =>
            { completionCalled := true, typed := none,
              finalClipboard := (get_selected_text env.os).2.clipboard }

/-- The default `current_model_name` chosen in `__main__`:
`available_models[0]` when the list is non-empty, else the placeholder
sentinel. -/
def initial_model (available_models : List String) : String :=
  match available_models with
  | [] => placeholder
  | m :: _ => m

/-- Observable outcome of the `__main__` startup sequence. -/
structure StartupResult where
  exitStatus : Option Nat
  hotkeyRegistered : Bool
  available_models : List String
  current_model_name : String
deriving DecidableEq, Repr

/-- Embedding of the `__main__` startup sequence: `check_api_key` first
(exiting with status 1 before anything else when it fails), then the model
fetch, then the default model choice, then hotkey registration. -/
def startup (api_key : Option String) (fetch : FetchOutcome) : StartupResult :=
  if check_api_key api_key = false then
    { exitStatus := some 1, hotkeyRegistered := false,
      available_models := [], current_model_name := "" }
  else
    let models := get_available_models fetch
    { exitStatus := none, hotkeyRegistered := true,
      available_models := models, current_model_name := initial_model models }

/-- Values the process-wide `current_model_name` can hold once startup has
initialised it from a given `available_models` list: the startup default,
and the result of any tray-menu selection action applied to a reachable
value — selections exist only for the menu's model entries. -/
inductive ReachableModel (available_models : List String) : String → Prop where
  | startup : ReachableModel available_models (initial_model available_models)
  | select (m s : String)
      (hm : m ∈ create_systray_menu_models available_models)
      (hs : ReachableModel available_models s) :
      ReachableModel available_models (update_selected_model m s)

/-- Helper: whenever the completion call produces no response, the
dispatcher never invokes `type_response`. -/
theorem typed_none_of_response_none (env : ActionEnv)
    (h : (get_cerebras_completion env.stream).response = none) :
    (perform_action env).typed = none := by
  unfold perform_action
  rcases hcap : (get_selected_text env.os).1 with _ | t
  · rfl
  · by_cases hm : env.selectedModel = "" ∨ env.selectedModel = placeholder
    · rw [if_pos hm]
    · rw [if_neg hm, h]

/-- C1: `get_selected_text` saves the clipboard, clears it, simulates the
copy, and reads the clipboard back: if the read-back is empty it restores
the saved original clipboard value exactly and returns `none`; if non-empty
it returns the captured text and leaves that text on the clipboard. -/
theorem get_selected_text_c1 (os : OS) :
    ((press_ctrl_c { os with clipboard := "" }).clipboard = "" →
      get_selected_text os = (none, os)) ∧
    ((press_ctrl_c { os with clipboard := "" }).clipboard ≠ "" →
      get_selected_text os =
        (some (press_ctrl_c { os with clipboard := "" }).clipboard,
         { os with clipboard := (press_ctrl_c { os with clipboard := "" }).clipboard })) := by
  obtain ⟨clip, sel⟩ := os
  cases sel <;> constructor <;> intro h <;>
    simp_all [get_selected_text, press_ctrl_c]

/-- Witness for C1 at two concrete OS states: no selection (clipboard
restored, absent reported) and a selected text (captured and left on the
clipboard). -/
theorem get_selected_text_c1_w :
    get_selected_text ⟨"orig", none⟩ = (none, ⟨"orig", none⟩) ∧
    get_selected_text ⟨"orig", some "sel"⟩ = (some "sel", ⟨"sel", some "sel"⟩) :=
  ⟨(get_selected_text_c1 ⟨"orig", none⟩).1 rfl,
   (get_selected_text_c1 ⟨"orig", some "sel"⟩).2 (by decide)⟩

/-- C2: `get_cerebras_completion` accumulates the stream by concatenating
each fragment's text content in stream order, a missing content counting as
the empty string; when the accumulated string is empty or all-whitespace it
reports `none`, and in that case the dispatcher simulates no paste. -/
theorem get_cerebras_completion_c2 (chunks : List (Option String)) :
    accumulateChunks chunks = String.join (chunks.map (fun c => c.getD "")) ∧
    (stripped_empty (accumulateChunks chunks) = true →
      (get_cerebras_completion (StreamOutcome.success chunks)).response = none) ∧
    (∀ env : ActionEnv, env.stream = StreamOutcome.success chunks →
      stripped_empty (accumulateChunks chunks) = true →
      (perform_action env).typed = none) := by
  refine ⟨?_, ?_, ?_⟩
  · simp [accumulateChunks, String.join, List.foldl_map]
  · intro h
    simp [get_cerebras_completion, h]
  · intro env henv h
    exact typed_none_of_response_none env
      (by rw [henv]; simp [get_cerebras_completion, h])

/-- Witness for C2: a stream of one whitespace fragment and one missing
fragment accumulates to a whitespace-only string, the completion reports
absent, and a dispatcher run over that stream types nothing. -/
theorem get_cerebras_completion_c2_w :
    accumulateChunks [some " ", none] =
      String.join ([some " ", none].map (fun c => c.getD "")) ∧
    (get_cerebras_completion (StreamOutcome.success [some " ", none])).response = none ∧
    (perform_action ⟨⟨"orig", some "sel"⟩, "llama3.1-8b",
        StreamOutcome.success [some " ", none]⟩).typed = none :=
  ⟨(get_cerebras_completion_c2 [some " ", none]).1,
   (get_cerebras_completion_c2 [some " ", none]).2.1 (by decide),
   (get_cerebras_completion_c2 [some " ", none]).2.2
     ⟨⟨"orig", some "sel"⟩, "llama3.1-8b", StreamOutcome.success [some " ", none]⟩
     rfl (by decide)⟩

/-- Helper: the embedding of the failed-stream branch of
`get_cerebras_completion` returns no response. -/
theorem response_none_of_failed (discarded : List (Option String)) :
    (get_cerebras_completion (StreamOutcome.failed discarded)).response = none :=
  rfl

/-- C3: every transport or protocol failure of the completion call yields
`none`, the client is released regardless of outcome, and on the failure
path the dispatcher never passes the partial accumulation to
`type_response`. -/
theorem get_cerebras_completion_c3 (discarded : List (Option String))
    (outcome : StreamOutcome) (env : ActionEnv)
    (henv : env.stream = StreamOutcome.failed discarded) :
    (get_cerebras_completion (StreamOutcome.failed discarded)).response = none ∧
    (get_cerebras_completion outcome).clientClosed = true ∧
    (perform_action env).typed = none := by
  refine ⟨response_none_of_failed discarded, ?_, ?_⟩
  · cases outcome with
    | success chunks =>
        unfold get_cerebras_completion
        dsimp only
        split <;> rfl
    | failed d => rfl
  · exact typed_none_of_response_none env
      (by rw [henv]; exact response_none_of_failed discarded)

/-- Witness for C3 at a failed stream that had already yielded a fragment:
the response is absent, the client is closed on a successful stream too,
and the concrete dispatcher run types nothing. -/
theorem get_cerebras_completion_c3_w :
    (get_cerebras_completion (StreamOutcome.failed [some "par"])).response = none ∧
    (get_cerebras_completion (StreamOutcome.success [some "ok"])).clientClosed = true ∧
    (perform_action ⟨⟨"orig", some "sel"⟩, "llama3.1-8b",
        StreamOutcome.failed [some "par"]⟩).typed = none :=
  get_cerebras_completion_c3 [some "par"] (StreamOutcome.success [some "ok"])
    ⟨⟨"orig", some "sel"⟩, "llama3.1-8b", StreamOutcome.failed [some "par"]⟩ rfl

/-- C4: if the model-list fetch fails, `get_available_models` returns the
fixed two-element fallback list, and the default selected model chosen at
startup equals the first element of the resulting list. -/
theorem get_available_models_c4 (api_key : Option String)
    (h : check_api_key api_key = true) :
    get_available_models FetchOutcome.failed = DEFAULT_MODELS ∧
    DEFAULT_MODELS.length = 2 ∧
    (startup api_key FetchOutcome.failed).current_model_name =
      (get_available_models FetchOutcome.failed).headD "" := by
  refine ⟨rfl, rfl, ?_⟩
  simp [startup, h, get_available_models, initial_model, DEFAULT_MODELS]

/-- Witness for C4 with a present credential: the fallback is the fixed
two-element list and startup selects its first element. -/
theorem get_available_models_c4_w :
    get_available_models FetchOutcome.failed = DEFAULT_MODELS ∧
    DEFAULT_MODELS.length = 2 ∧
    (startup (some "key") FetchOutcome.failed).current_model_name =
      (get_available_models FetchOutcome.failed).headD "" :=
  get_available_models_c4 (some "key") (by decide)

/-- C5: once any models exist, every reachable value of the selected model
-- after startup initialisation and any sequence of tray-menu selections --
is one of the known model identifiers; when no models were ever available
the reachable value is the placeholder sentinel. -/
theorem reachable_model_c5 (available_models : List String) (s : String)
    (h : ReachableModel available_models s) :
    (available_models ≠ [] → s ∈ available_models) ∧
    (available_models = [] → s = placeholder) := by
  induction h with
  | startup =>
      cases available_models with
      | nil => exact ⟨fun hne => absurd rfl hne, fun _ => rfl⟩
      | cons a as => exact ⟨fun _ => List.mem_cons_self a as, fun hc => by cases hc⟩
  | select m s hm hs ih =>
      refine ⟨fun _ => hm, fun hc => ?_⟩
      rw [hc] at hm
      simp [create_systray_menu_models] at hm

/-- Witness for C5: the startup value over a one-element model list is a
known identifier, and that list is not the empty one. -/
theorem reachable_model_c5_w :
    ((["llama3.1-8b"] : List String) ≠ [] →
      "llama3.1-8b" ∈ (["llama3.1-8b"] : List String)) ∧
    ((["llama3.1-8b"] : List String) = [] → "llama3.1-8b" = placeholder) :=
  reachable_model_c5 ["llama3.1-8b"] "llama3.1-8b" ReachableModel.startup

/-- C6: when the selected model is the empty string or the placeholder
sentinel, `perform_action` aborts before any remote completion call: the
completion request is never issued. -/
theorem perform_action_c6 (env : ActionEnv)
    (h : env.selectedModel = "" ∨ env.selectedModel = placeholder) :
    (perform_action env).completionCalled = false := by
  unfold perform_action
  rcases hcap : (get_selected_text env.os).1 with _ | t
  · rfl
  · rw [if_pos h]

/-- Witness for C6: a run with valid selected text but the placeholder
sentinel selected issues no completion request. -/
theorem perform_action_c6_w :
    (perform_action ⟨⟨"orig", some "sel"⟩, placeholder,
        StreamOutcome.success [some "hi"]⟩).completionCalled = false :=
  perform_action_c6
    ⟨⟨"orig", some "sel"⟩, placeholder, StreamOutcome.success [some "hi"]⟩
    (Or.inr rfl)

/-- C7: with the credential environment variable absent, startup exits with
status 1 and the global hotkey is never registered. -/
theorem startup_c7 (fetch : FetchOutcome) :
    (startup none fetch).exitStatus = some 1 ∧
    (startup none fetch).hotkeyRegistered = false :=
  ⟨rfl, rfl⟩

/-- C8: selecting the same known model twice leaves the selected value
equal to selecting it once, the checked-state predicate is unchanged by
the second selection, and it stays consistent with the selected value. -/
theorem update_selected_model_c8 (available_models : List String) (m : String)
    (_hm : m ∈ available_models) (s n : String) :
    update_selected_model m (update_selected_model m s) =
      update_selected_model m s ∧
    menu_item_checked (update_selected_model m (update_selected_model m s)) n =
      menu_item_checked (update_selected_model m s) n ∧
    menu_item_checked (update_selected_model m s) n =
      (update_selected_model m s == n) :=
  ⟨rfl, rfl, rfl⟩

/-- Witness for C8 at a known model of the fallback list. -/
theorem update_selected_model_c8_w :
    update_selected_model "llama3.1-8b"
        (update_selected_model "llama3.1-8b" "llama3.1-70b") =
      update_selected_model "llama3.1-8b" "llama3.1-70b" ∧
    menu_item_checked (update_selected_model "llama3.1-8b"
        (update_selected_model "llama3.1-8b" "llama3.1-70b")) "llama3.1-8b" =
      menu_item_checked (update_selected_model "llama3.1-8b" "llama3.1-70b")
        "llama3.1-8b" ∧
    menu_item_checked (update_selected_model "llama3.1-8b" "llama3.1-70b")
        "llama3.1-8b" =
      (update_selected_model "llama3.1-8b" "llama3.1-70b" == "llama3.1-8b") :=
  update_selected_model_c8 DEFAULT_MODELS "llama3.1-8b" (by decide)
    "llama3.1-70b" "llama3.1-8b"

/-- C9: a credential variable set to the empty string is treated exactly
like an absent variable: startup behaves identically, exits with status 1,
and the hotkey is never registered. -/
theorem check_api_key_c9 (fetch : FetchOutcome) :
    startup (some "") fetch = startup none fetch ∧
    (startup (some "") fetch).exitStatus = some 1 ∧
    (startup (some "") fetch).hotkeyRegistered = false :=
  ⟨rfl, rfl, rfl⟩

/-- C10: `perform_action` validates the model by string equality against
the literal sentinel: with text captured, a selected model equal to the
sentinel aborts the action even when it is among the known identifiers,
while any non-empty non-sentinel string passes validation and the
completion is requested even when it is not among the known identifiers. -/
theorem perform_action_c10 (env : ActionEnv) (known_models : List String)
    (hsel : (get_selected_text env.os).1 ≠ none) :
    (env.selectedModel = placeholder → env.selectedModel ∈ known_models →
      (perform_action env).completionCalled = false) ∧
    (env.selectedModel ≠ "" → env.selectedModel ≠ placeholder →
      env.selectedModel ∉ known_models →
      (perform_action env).completionCalled = true) := by
  constructor
  · intro hp _
    unfold perform_action
    rcases hcap : (get_selected_text env.os).1 with _ | t
    · rfl
    · rw [if_pos (Or.inr hp)]
  · intro h1 h2 _
    unfold perform_action
    rcases hcap : (get_selected_text env.os).1 with _ | t
    · exact absurd hcap hsel
    · dsimp only
      rw [if_neg (not_or.mpr ⟨h1, h2⟩)]
      cases (get_cerebras_completion env.stream).response with
      | none => rfl
      | some r =>
          dsimp only
          by_cases hr : r = ""
          · rw [if_pos hr]
          · rw [if_neg hr]

/-- Witness for C10: with captured text, selecting the sentinel string
aborts even when it is listed among the known models, while an unknown
non-sentinel name still triggers the completion call. -/
theorem perform_action_c10_w :
    (perform_action ⟨⟨"o", some "sel"⟩, placeholder,
        StreamOutcome.success [some "hi"]⟩).completionCalled = false ∧
    (perform_action ⟨⟨"o", some "sel"⟩, "ghost-model",
        StreamOutcome.success [some "hi"]⟩).completionCalled = true :=
  ⟨(perform_action_c10
      ⟨⟨"o", some "sel"⟩, placeholder, StreamOutcome.success [some "hi"]⟩
      [placeholder] (by decide)).1 rfl (List.mem_singleton.mpr rfl),
   (perform_action_c10
      ⟨⟨"o", some "sel"⟩, "ghost-model", StreamOutcome.success [some "hi"]⟩
      [] (by decide)).2 (by decide) (by decide) (List.not_mem_nil "ghost-model")⟩

end HatAu
